import Mathlib

/-
  Verification development for the blastcam star-camera flight software.

  Shallow embedding conventions:
  - C `double` and `float` values are modelled as exact rationals (ℚ); a C
    floating literal is modelled by the rational value its decimal text denotes.
  - C `int` values are modelled as ℤ (no arithmetic in the embedded code paths
    comes near the 32-bit range, so wrap-around is irrelevant here).
  - External library calls (astrometry.net solver internals, SOFA routines,
    libc math) are modelled as oracle parameters: the embedded code records
    exactly how their outputs are combined, which is what the source controls.
  - File contents are modelled as `List Char`; appending to a file opened with
    mode "a" is modelled as list concatenation.
-/

/-! ## Constants from `camera.h` -/

/-- Frame width in pixels (`CAMERA_WIDTH` in camera.h). -/
def CAMERA_WIDTH : ℤ := 1936

/-- Frame height in pixels (`CAMERA_HEIGHT` in camera.h). -/
def CAMERA_HEIGHT : ℤ := 1216

/-- Unusable margin on each frame edge in pixels (`CAMERA_MARGIN` in camera.h). -/
def CAMERA_MARGIN : ℤ := 0

/-- Minimum acceptable pixel scale in arcsec/px (`MIN_PS` in camera.h). -/
def MIN_PS : ℚ := 6.0

/-- Maximum acceptable pixel scale in arcsec/px (`MAX_PS` in camera.h). -/
def MAX_PS : ℚ := 6.5

/-- UT1 minus UTC offset constant (`dut1` in camera.h). -/
def dut1 : ℚ := -0.23

/-- The IEEE-754 double nearest to pi, the value of `M_PI` used by the source
(884279719003555 / 2^48). -/
def M_PI : ℚ := 884279719003555 / 281474976710656

/-! ## The three shared state groups (`struct astrometry`, `struct
camera_params`, `struct blob_params`) -/

/-- `struct astrometry` (astrometry.h; field list taken from the initializer of
`all_astro_params` in astrometry.c and its uses): all fields are C doubles. -/
structure Astrometry where
  rawtime : ℚ
  logodds : ℚ
  latitude : ℚ
  longitude : ℚ
  hm : ℚ
  ra : ℚ
  dec : ℚ
  fr : ℚ
  ps : ℚ
  ir : ℚ
  alt : ℚ
  az : ℚ
  deriving DecidableEq

/-- Modelled from the spec: `struct camera_params` is declared in
lens_adapter.h, which is not among the provided sources. Its fields are the
ones the spec lists for CameraParams (exposure time, exposure-change flag,
focus mode/positions/step bounds, infinity-focus flag, aperture step count,
max-aperture flag), with the member names used by processClient in commands.c.
`exposure_time` is a double and `focus_position` a float (it receives the
float command field `focus_pos`); the flags and bounds are C ints. -/
structure CameraParams where
  exposure_time : ℚ
  change_exposure_bool : ℤ
  focus_mode : ℤ
  start_focus_pos : ℤ
  end_focus_pos : ℤ
  focus_step : ℤ
  focus_position : ℚ
  focus_inf : ℤ
  aperture_steps : ℤ
  max_aperture : ℤ
  deriving DecidableEq

/-- `struct blob_params` (camera.h, declared under `#pragma pack(push, 1)`):
all fields are C ints except `n_sigma`, a float. -/
structure BlobParams where
  spike_limit : ℤ
  dynamic_hot_pixels : ℤ
  r_smooth : ℤ
  high_pass_filter : ℤ
  r_high_pass_filter : ℤ
  centroid_search_border : ℤ
  filter_return_image : ℤ
  n_sigma : ℚ
  unique_star_spacing : ℤ
  make_static_hp_mask : ℤ
  use_static_hp_mask : ℤ
  deriving DecidableEq

/-- The StateStore of the spec: the three shared configuration/result groups
(`all_astro_params`, `all_camera_params`, `all_blob_params`). -/
structure StateStore where
  astro : Astrometry
  cam : CameraParams
  blob : BlobParams
  deriving DecidableEq

/-- `struct commands` (commands.c, declared under `#pragma pack(push, 1)`):
the CommandPacket received from an operator. `blob_params` is a C array of
nine floats, modelled as nine explicit rational fields bp0 .. bp8. -/
structure Commands where
  logodds : ℚ
  latitude : ℚ
  longitude : ℚ
  height : ℚ
  exposure : ℚ
  focus_pos : ℚ
  focus_mode : ℤ
  start_focus_pos : ℤ
  end_focus_pos : ℤ
  focus_step : ℤ
  set_focus_inf : ℤ
  aperture_steps : ℤ
  set_max_aperture : ℤ
  make_hp : ℤ
  use_hp : ℤ
  bp0 : ℚ
  bp1 : ℚ
  bp2 : ℚ
  bp3 : ℚ
  bp4 : ℚ
  bp5 : ℚ
  bp6 : ℚ
  bp7 : ℚ
  bp8 : ℚ
  deriving DecidableEq

/-! ## Command application (`processClient`, commands.c lines 152 to 217) -/

/-- C conversion of a floating value to `int`: truncation toward zero. Used
where processClient assigns a float `blob_params[k]` command into an int
member of `struct blob_params`. -/
def truncToInt (q : ℚ) : ℤ := q.num / q.den

/-- The merge of one CommandPacket into the three shared groups, exactly the
assignment sequence of processClient (commands.c lines 152 to 217). The call
to `adjustCameraHardware()` between the camera and blob updates lives in
lens_adapter.c, which is not among the provided sources; modelled from the
spec: `applyHardwareChanges()` pushes exposure/focus/aperture deltas from
CameraParams to hardware, so it is modelled as leaving the three groups
unchanged. -/
def applyCommand (s : StateStore) (c : Commands) : StateStore :=
  let astro := { s.astro with
    logodds := c.logodds
    latitude := c.latitude
    longitude := c.longitude
    hm := c.height }
  let cam0 := s.cam
  let cam1 :=
    if Int.ceil c.exposure ≠ Int.ceil cam0.exposure_time then
      { cam0 with exposure_time := c.exposure, change_exposure_bool := 1 }
    else cam0
  let cam := { cam1 with
    focus_mode := c.focus_mode
    start_focus_pos := c.start_focus_pos
    end_focus_pos := c.end_focus_pos
    focus_step := c.focus_step
    focus_inf := c.set_focus_inf
    focus_position :=
      if c.focus_pos ≠ -1 then c.focus_pos else cam1.focus_position
    max_aperture := c.set_max_aperture
    aperture_steps := c.aperture_steps }
  let blob := { s.blob with
    make_static_hp_mask := c.make_hp
    use_static_hp_mask := c.use_hp
    spike_limit :=
      if c.bp0 ≥ 0 then truncToInt c.bp0 else s.blob.spike_limit
    dynamic_hot_pixels := truncToInt c.bp1
    r_smooth :=
      if c.bp2 ≥ 0 then truncToInt c.bp2 else s.blob.r_smooth
    high_pass_filter := truncToInt c.bp3
    r_high_pass_filter :=
      if c.bp4 ≥ 0 then truncToInt c.bp4 else s.blob.r_high_pass_filter
    centroid_search_border :=
      if c.bp5 ≥ 0 then truncToInt c.bp5 else s.blob.centroid_search_border
    filter_return_image := truncToInt c.bp6
    n_sigma :=
      if c.bp7 ≥ 0 then c.bp7 else s.blob.n_sigma
    unique_star_spacing :=
      if c.bp8 ≥ 0 then truncToInt c.bp8 else s.blob.unique_star_spacing }
  ⟨astro, cam, blob⟩

/-! ## Wire encoding and the client cycle (`processClient`, commands.c lines
137 to 246) -/

/-- The byte encoders of the machine ABI, external to the source: how a C
double, int and float are laid down in memory. The source relies on them only
through `send(socket, &all_data, sizeof(struct telemetry), ...)`; the widths
(8, 4, 4 bytes) are stated as hypotheses where a theorem needs them. -/
structure WireEnc where
  f64 : ℚ → List ℕ
  i32 : ℤ → List ℕ
  f32 : ℚ → List ℕ

/-- The encoders produce the fixed C type widths: 8 bytes per double, 4 per
int, 4 per float. -/
def WireEnc.sized (E : WireEnc) : Prop :=
  (∀ x, (E.f64 x).length = 8) ∧ (∀ z, (E.i32 z).length = 4) ∧
    (∀ x, (E.f32 x).length = 4)

/-- Bytes of `struct astrometry` in declaration order, with no padding (the
enclosing `struct telemetry` is declared under `#pragma pack(push, 1)` and the
group is all doubles). -/
def serAstro (E : WireEnc) (a : Astrometry) : List ℕ :=
  E.f64 a.rawtime ++ E.f64 a.logodds ++ E.f64 a.latitude ++ E.f64 a.longitude
    ++ E.f64 a.hm ++ E.f64 a.ra ++ E.f64 a.dec ++ E.f64 a.fr ++ E.f64 a.ps
    ++ E.f64 a.ir ++ E.f64 a.alt ++ E.f64 a.az

/-- Modelled from the spec: bytes of `struct camera_params` (lens_adapter.h is
not among the provided sources) in the field order of the CameraParams group,
packed with no padding as the spec requires of the wire records. -/
def serCam (E : WireEnc) (c : CameraParams) : List ℕ :=
  E.f64 c.exposure_time ++ E.i32 c.change_exposure_bool ++ E.i32 c.focus_mode
    ++ E.i32 c.start_focus_pos ++ E.i32 c.end_focus_pos ++ E.i32 c.focus_step
    ++ E.f32 c.focus_position ++ E.i32 c.focus_inf ++ E.i32 c.aperture_steps
    ++ E.i32 c.max_aperture

/-- Bytes of `struct blob_params` in camera.h declaration order; the struct is
declared under `#pragma pack(push, 1)`, so there is no padding. -/
def serBlob (E : WireEnc) (b : BlobParams) : List ℕ :=
  E.i32 b.spike_limit ++ E.i32 b.dynamic_hot_pixels ++ E.i32 b.r_smooth
    ++ E.i32 b.high_pass_filter ++ E.i32 b.r_high_pass_filter
    ++ E.i32 b.centroid_search_border ++ E.i32 b.filter_return_image
    ++ E.f32 b.n_sigma ++ E.i32 b.unique_star_spacing
    ++ E.i32 b.make_static_hp_mask ++ E.i32 b.use_static_hp_mask

/-- Bytes of `struct telemetry` (commands.c lines 23 to 29, under
`#pragma pack(push, 1)`): the three groups concatenated, as filled in by the
three `memcpy` calls of processClient (lines 223 to 225). -/
def serTelemetry (E : WireEnc) (s : StateStore) : List ℕ :=
  serAstro E s.astro ++ serCam E s.cam ++ serBlob E s.blob

/-- Outcome of one iteration of the processClient `while (1)` loop. -/
structure CycleResult where
  store : StateStore
  sent : List ℕ
  openNext : Bool
  deriving DecidableEq

/-- One iteration of the processClient loop (commands.c lines 137 to 243).
`recv` is the outcome of the bounded `recvfrom`: `none` models
`recv_status == -1` (timeout or error), `some c` a received CommandPacket.
`frame` is the current contents of the raw image buffer `camera_raw`, read as
`CAMERA_WIDTH*CAMERA_HEIGHT` bytes. `tOk` and `iOk` say whether the telemetry
and image `send` calls return a positive count; on a failed send the loop
breaks and the socket is closed (`openNext = false`). -/
def clientCycle (E : WireEnc) (s : StateStore) (recv : Option Commands)
    (frame : List ℕ) (tOk iOk : Bool) : CycleResult :=
  let s1 := match recv with
    | none => s
    | some c => applyCommand s c
  let telem := serTelemetry E s1
  if tOk then
    if iOk then ⟨s1, telem ++ frame, true⟩
    else ⟨s1, telem, false⟩
  else ⟨s1, [], false⟩

/-! ## Decimal rendering, modelling the `fprintf` conversions used for the
observation log (astrometry.c lines 213 to 219) -/

/-- One decimal digit as a character. -/
def digitChar (d : ℕ) : Char :=
  match d with
  | 0 => '0' | 1 => '1' | 2 => '2' | 3 => '3' | 4 => '4'
  | 5 => '5' | 6 => '6' | 7 => '7' | 8 => '8' | _ => '9'

/-- Decimal digits of a natural number, most significant first (fuel-driven;
`natDigits` supplies enough fuel). -/
def natDigitsF : ℕ → ℕ → List Char
  | 0, _ => []
  | fuel + 1, n =>
    if n < 10 then [digitChar n]
    else natDigitsF fuel (n / 10) ++ [digitChar (n % 10)]

/-- Decimal digits of a natural number, most significant first. -/
def natDigits (n : ℕ) : List Char := natDigitsF (n + 1) n

/-- Rendering of a C `int` by the printf `%i` conversion. -/
def fmtInt (z : ℤ) : List Char :=
  if z < 0 then '-' :: natDigits z.natAbs else natDigits z.natAbs

/-- The digits of a fraction part, left-padded with zeros to `prec` places. -/
def padFrac (prec fp : ℕ) : List Char :=
  List.replicate (prec - (natDigits fp).length) '0' ++ natDigits fp

/-- Rendering of a double by the printf `%f` / `%lf` / `%.15f` conversions:
the value rounded to `prec` decimal places, written with a sign, an integer
part, a point and exactly `prec` fraction digits (`%lf` and `%f` use
`prec = 6`). -/
def fmtFixed (prec : ℕ) (q : ℚ) : List Char :=
  let scaled : ℤ := round (q * (10 : ℚ) ^ prec)
  let sign : List Char := if scaled < 0 then ['-'] else []
  let m : ℕ := scaled.natAbs
  sign ++ natDigits (m / 10 ^ prec) ++ '.' :: padFrac prec (m % 10 ^ prec)

/-- Number of newline characters in a file's contents. -/
def countNewlines (l : List Char) : ℕ := l.count '\n'

/-- The record appended to the observation log by a successful solve: the
output of `fprintf(fptr, "%i|%lf|%lf|%lf|%lf|%.15f|%.15f|%lf|%f", num_blobs,
ra, dec, fr, ps, alt, az, ir, elapsed)` at astrometry.c line 214. Note the
format string carries no newline. -/
def logRecord (numBlobs : ℕ) (ra dec fr ps alt az ir elapsed : ℚ) :
    List Char :=
  fmtInt (numBlobs : ℤ) ++ '|' :: fmtFixed 6 ra ++ '|' :: fmtFixed 6 dec
    ++ '|' :: fmtFixed 6 fr ++ '|' :: fmtFixed 6 ps ++ '|' :: fmtFixed 15 alt
    ++ '|' :: fmtFixed 15 az ++ '|' :: fmtFixed 6 ir
    ++ '|' :: fmtFixed 6 elapsed

/-! ## The astrometric solve (`lostInSpace`, astrometry.c lines 80 to 228) -/

/-- The external library routines lostInSpace calls while configuring and
selecting indexes: `index_is_within_range`, `arcsec2dist`, `dist2deg` and
`hypot` from astrometry.net / libm, and libc `log`. The type `ι` stands for
`index_t *`, opaque to the source. -/
structure Externals (ι : Type) where
  withinRange : ι → ℚ → ℚ → ℚ → Bool
  arcsec2dist : ℚ → ℚ
  dist2deg : ℚ → ℚ
  hypot : ℚ → ℚ → ℚ
  logFn : ℚ → ℚ

/-- Everything the external solver and reduction routines hand back on a
successful `solver_run`: the world-coordinate readings at the frame center
(`tan_pixelxy2radec`, `tan_pixel_scale`, `tan_get_orientation`), the
`iauAtco13` observed quantities (azimuth `aob`, zenith distance `zob`, hour
angle `hob`, declination `dob`, right ascension `rob`, equation of origins
`eo`, all radians), the `iauHd2pa` parallactic angle `paRad` (radians) and the
measured elapsed milliseconds. -/
structure SuccessData where
  wcsRa : ℚ
  wcsDec : ℚ
  wcsPs : ℚ
  wcsFr : ℚ
  aob : ℚ
  zob : ℚ
  hob : ℚ
  dob : ℚ
  rob : ℚ
  eo : ℚ
  paRad : ℚ
  elapsedMs : ℚ
  deriving DecidableEq

/-- Parity search mode constants of the solver. -/
inductive Parity where
  | both
  | normal
  | flip
  deriving DecidableEq

/-- The solver fields lostInSpace assigns while configuring a solve
(astrometry.c lines 94 to 116). -/
structure SolverConfig where
  funits_lower : ℚ
  funits_upper : ℚ
  endobj : ℕ
  quadsize_min : ℚ
  parity : Parity
  keep_logodds : ℚ
  logratio_totune : ℚ
  logratio_toprint : ℚ
  distance_from_quad_bonus : ℤ
  deriving DecidableEq

/-- What one call of lostInSpace produces: the return value `sol_status`, the
new contents of `all_astro_params`, the new contents of the observation file,
the list of index partitions handed to `solver_add_index`, and the solver
configuration that was installed. -/
structure LisResult (ι : Type) where
  status : ℤ
  astro : Astrometry
  file : List Char
  searched : List ι
  config : SolverConfig

/-- The embedding of `lostInSpace` (astrometry.c lines 80 to 228).

`astro` and `camExposure` are the entry values of the globals
`all_astro_params` and `all_camera_params.exposure_time`; `datafile` is the
observation file's contents. `uninitRa` and `uninitDec` are the contents of
the local variables `ra` and `dec` declared at line 84: the source reads them
in the index-selection test at line 138 *before any assignment*, so their
values are indeterminate and the embedding takes them as inputs. `outcome` is
`none` when `solver_run` ends with `best_match_solves` false, else the data
the external routines return.

Index selection (lines 135 to 145): an index is added when
`ra >= -180 && dec >= -90 && index_is_within_range(index, ra, dec,
dist2deg(hprange))`, or else when `ra < -180 || dec < -90`, with `hprange =
arcsec2dist(MAX_PS * hypot(W - 2*margin, H - 2*margin) / 2)`.

On success (lines 152 to 222): the stored telemetry is taken from the
`iauAtco13` observed place converted from radians to degrees, the log record
is appended to the file opened with mode "a", and the status becomes 1. On
failure nothing is written and the status stays 0. -/
def lostInSpace {ι : Type} (ext : Externals ι) (indexes : List ι)
    (astro : Astrometry) (camExposure : ℚ) (uninitRa uninitDec : ℚ)
    (numBlobs : ℕ) (outcome : Option SuccessData) (datafile : List Char) :
    LisResult ι :=
  let usableW : ℚ := ((CAMERA_WIDTH - 2 * CAMERA_MARGIN : ℤ) : ℚ)
  let usableH : ℚ := ((CAMERA_HEIGHT - 2 * CAMERA_MARGIN : ℤ) : ℚ)
  let config : SolverConfig :=
    { funits_lower := MIN_PS
      funits_upper := MAX_PS
      endobj := numBlobs
      quadsize_min := 0.1 * min usableW usableH
      parity := Parity.both
      keep_logodds := ext.logFn astro.logodds
      logratio_totune := ext.logFn 1000000
      logratio_toprint := ext.logFn 1000000
      distance_from_quad_bonus := 1 }
  let hprange : ℚ := ext.arcsec2dist (MAX_PS * ext.hypot usableW usableH / 2)
  let searched : List ι := indexes.filter fun idx =>
    (decide (uninitRa ≥ -180) && decide (uninitDec ≥ -90)
        && ext.withinRange idx uninitRa uninitDec (ext.dist2deg hprange))
      || (decide (uninitRa < -180) || decide (uninitDec < -90))
  match outcome with
  | none =>
    { status := 0, astro := astro, file := datafile, searched := searched
      config := config }
  | some d =>
    let ir : ℚ := d.paRad * (180 / M_PI) + d.wcsFr
    let astro1 : Astrometry := { astro with
      ir := ir
      ra := d.rob * (180 / M_PI)
      dec := d.dob * (180 / M_PI)
      alt := 90 - d.zob * (180 / M_PI)
      az := d.aob * (180 / M_PI)
      fr := d.wcsFr
      ps := d.wcsPs }
    let record := logRecord numBlobs astro1.ra astro1.dec astro1.fr astro1.ps
      astro1.alt astro1.az astro1.ir d.elapsedMs
    { status := 1, astro := astro1, file := datafile ++ record
      searched := searched, config := config }

/-- Modelled from the spec: the index selection the spec describes, driven by
the *previous pointing guess* — with the unknown sentinel (ra below -180 or
dec below -90) every partition is searched, otherwise only partitions whose
footprint is within the search radius of the guess. Stated for comparison
with the selection the source actually performs. -/
def specSelection {ι : Type} (withinRange : ι → ℚ → ℚ → ℚ → Bool)
    (guessRa guessDec radius : ℚ) (indexes : List ι) : List ι :=
  if guessRa < -180 ∨ guessDec < -90 then indexes
  else indexes.filter fun idx => withinRange idx guessRa guessDec radius

/-! ## The command-lock discipline (`processClient`, commands.c lines 142 to
147 and 219 to 220) -/

/-- Control points of one client session around the command-merge region:
`checking` is the `while (command_lock) usleep(100000);` test, `setting` is
having passed that test but not yet executed `command_lock = 1;`, `inCS` is
the merge region (lines 148 to 218), `done` is after `command_lock = 0;`. -/
inductive LockPC where
  | checking
  | setting
  | inCS
  | done
  deriving DecidableEq

/-- The shared flag `command_lock` and the control points of two client
session threads that both received a command. -/
structure LockState where
  lock : Bool
  t0 : LockPC
  t1 : LockPC
  deriving DecidableEq

/-- Interleaved execution of the lock protocol by the two threads. The test
of `command_lock` and the store `command_lock = 1` are separate statements in
the source, so they are separate steps; `command_lock = 0` is unconditional. -/
inductive LockStep : LockState → LockState → Prop where
  | pass0 (l : LockState) : l.lock = false → l.t0 = LockPC.checking →
      LockStep l { l with t0 := LockPC.setting }
  | pass1 (l : LockState) : l.lock = false → l.t1 = LockPC.checking →
      LockStep l { l with t1 := LockPC.setting }
  | set0 (l : LockState) : l.t0 = LockPC.setting →
      LockStep l { l with lock := true, t0 := LockPC.inCS }
  | set1 (l : LockState) : l.t1 = LockPC.setting →
      LockStep l { l with lock := true, t1 := LockPC.inCS }
  | rel0 (l : LockState) : l.t0 = LockPC.inCS →
      LockStep l { l with lock := false, t0 := LockPC.done }
  | rel1 (l : LockState) : l.t1 = LockPC.inCS →
      LockStep l { l with lock := false, t1 := LockPC.done }

/-- Both sessions start at the `while` test with the flag clear. -/
def lockInit : LockState :=
  { lock := false, t0 := LockPC.checking, t1 := LockPC.checking }

/-- States the two sessions can reach from the start by interleaved steps. -/
def LockReachable (l : LockState) : Prop :=
  Relation.ReflTransGen LockStep lockInit l

/-! ## Concrete instances used by witnesses and counterexamples -/

/-- An all-zero astrometry group. -/
def astroZero : Astrometry := ⟨0, 0, 0, 0, 0, 0, 0, 0, 0, 0, 0, 0⟩

/-- An astrometry group whose previous solved pointing is the valid guess
(ra, dec) = (10, 20). -/
def astroGuess : Astrometry := { astroZero with ra := 10, dec := 20 }

/-- An all-zero camera group. -/
def camZero : CameraParams := ⟨0, 0, 0, 0, 0, 0, 0, 0, 0, 0⟩

/-- An all-zero blob group. -/
def blobZero : BlobParams := ⟨0, 0, 0, 0, 0, 0, 0, 0, 0, 0, 0⟩

/-- An all-zero state store. -/
def storeDemo : StateStore := ⟨astroZero, camZero, blobZero⟩

/-- An all-zero successful-solve data record. -/
def sdZero : SuccessData := ⟨0, 0, 0, 0, 0, 0, 0, 0, 0, 0, 0, 0⟩

/-- A successful-solve record whose frame-center (world-coordinate) right
ascension is 5 degrees while the observed apparent right ascension is 0. -/
def sdObs : SuccessData := { sdZero with wcsRa := 5 }

/-- Concrete externals over index handles modelled as naturals: a range test
that accepts nothing, and identity-shaped numeric routines. -/
def extDemo : Externals ℕ :=
  ⟨fun _ _ _ _ => false, id, id, fun a b => a + b, id⟩

/-- The search radius lostInSpace computes under `extDemo`. -/
def radiusDemo : ℚ :=
  extDemo.dist2deg (extDemo.arcsec2dist (MAX_PS *
    extDemo.hypot ((CAMERA_WIDTH - 2 * CAMERA_MARGIN : ℤ) : ℚ)
      ((CAMERA_HEIGHT - 2 * CAMERA_MARGIN : ℤ) : ℚ) / 2))

/-- Concrete byte encoders of the correct C widths. -/
def encDemo : WireEnc :=
  ⟨fun _ => List.replicate 8 0, fun _ => List.replicate 4 0,
    fun _ => List.replicate 4 0⟩

/-! ## Character-level facts about the log rendering -/

/-- A decimal digit character is never a newline. -/
theorem digitChar_ne_newline (d : ℕ) : digitChar d ≠ '\n' := by
  unfold digitChar
  split <;> decide

/-- The digit expansion contains no newline. -/
theorem newline_not_mem_natDigitsF (fuel n : ℕ) :
    '\n' ∉ natDigitsF fuel n := by
  induction fuel generalizing n with
  | zero => simp [natDigitsF]
  | succ fuel ih =>
    simp only [natDigitsF]
    split
    · simp [Ne.symm (digitChar_ne_newline n)]
    · simp only [List.mem_append, List.mem_singleton]
      rintro (h | h)
      · exact ih _ h
      · exact digitChar_ne_newline _ h.symm

/-- The digit rendering of a natural contains no newline. -/
theorem newline_not_mem_natDigits (n : ℕ) : '\n' ∉ natDigits n :=
  newline_not_mem_natDigitsF _ _

/-- The `%i` rendering of an int contains no newline. -/
theorem newline_not_mem_fmtInt (z : ℤ) : '\n' ∉ fmtInt z := by
  unfold fmtInt
  split
  · simp only [List.mem_cons]
    rintro (h | h)
    · exact absurd h (by decide)
    · exact newline_not_mem_natDigits _ h
  · exact newline_not_mem_natDigits _

/-- The padded fraction digits contain no newline. -/
theorem newline_not_mem_padFrac (p f : ℕ) : '\n' ∉ padFrac p f := by
  unfold padFrac
  simp only [List.mem_append, List.mem_replicate]
  rintro (⟨-, h⟩ | h)
  · exact absurd h (by decide)
  · exact newline_not_mem_natDigits _ h

/-- The fixed-point rendering of a double contains no newline. -/
theorem newline_not_mem_fmtFixed (p : ℕ) (q : ℚ) : '\n' ∉ fmtFixed p q := by
  unfold fmtFixed
  simp only [List.mem_append, List.mem_cons]
  rintro ((h | h) | h | h)
  · revert h
    split <;> simp
  · exact newline_not_mem_natDigits _ h
  · exact absurd h (by decide)
  · exact newline_not_mem_padFrac _ _ h

/-- The whole observation-log record contains no newline character. -/
theorem newline_not_mem_logRecord (nb : ℕ) (ra dec fr ps alt az ir el : ℚ) :
    '\n' ∉ logRecord nb ra dec fr ps alt az ir el := by
  unfold logRecord
  simp only [List.mem_append, List.mem_cons]
  rintro (((((((( h | h | h) | h | h) | h | h) | h | h) | h | h) | h | h)
    | h | h) | h | h)
  all_goals first
    | exact newline_not_mem_fmtInt _ h
    | exact newline_not_mem_fmtFixed _ _ h
    | exact absurd h (by decide)

/-- Appending a log record to a file leaves its newline count unchanged. -/
theorem countNewlines_append_logRecord (df : List Char) (nb : ℕ)
    (ra dec fr ps alt az ir el : ℚ) :
    countNewlines (df ++ logRecord nb ra dec fr ps alt az ir el) =
      countNewlines df := by
  unfold countNewlines
  rw [List.count_append]
  rw [List.count_eq_zero.mpr (newline_not_mem_logRecord nb ra dec fr ps alt az ir el)]
  omega

/-! ## Claim theorems -/

/-- C1: applying a CommandPacket follows the sentinel merge table of
processClient: `focus_pos` is kept exactly when the command carries the
sentinel -1, the six blob fields with a negative-value sentinel
(`spike_limit`, `r_smooth`, `r_high_pass_filter`, `centroid_search_border`,
`n_sigma`, `unique_star_spacing`) are kept exactly when the commanded value is
negative and otherwise overwritten with the commanded value (converted to int
where the field is an int), and every field without a sentinel (logodds,
latitude, longitude, height, focus mode and auto-focus bounds, set_focus_inf,
aperture fields, make_hp, use_hp, dynamic_hot_pixels, high_pass_filter,
filter_return_image) is always overwritten. -/
theorem C1_sentinel_merge_table (s : StateStore) (c : Commands) :
    ((applyCommand s c).cam.focus_position =
      if c.focus_pos ≠ -1 then c.focus_pos else s.cam.focus_position)
  ∧ ((applyCommand s c).blob.spike_limit =
      if c.bp0 ≥ 0 then truncToInt c.bp0 else s.blob.spike_limit)
  ∧ ((applyCommand s c).blob.r_smooth =
      if c.bp2 ≥ 0 then truncToInt c.bp2 else s.blob.r_smooth)
  ∧ ((applyCommand s c).blob.r_high_pass_filter =
      if c.bp4 ≥ 0 then truncToInt c.bp4 else s.blob.r_high_pass_filter)
  ∧ ((applyCommand s c).blob.centroid_search_border =
      if c.bp5 ≥ 0 then truncToInt c.bp5 else s.blob.centroid_search_border)
  ∧ ((applyCommand s c).blob.n_sigma =
      if c.bp7 ≥ 0 then c.bp7 else s.blob.n_sigma)
  ∧ ((applyCommand s c).blob.unique_star_spacing =
      if c.bp8 ≥ 0 then truncToInt c.bp8 else s.blob.unique_star_spacing)
  ∧ (applyCommand s c).astro.logodds = c.logodds
  ∧ (applyCommand s c).astro.latitude = c.latitude
  ∧ (applyCommand s c).astro.longitude = c.longitude
  ∧ (applyCommand s c).astro.hm = c.height
  ∧ (applyCommand s c).cam.focus_mode = c.focus_mode
  ∧ (applyCommand s c).cam.start_focus_pos = c.start_focus_pos
  ∧ (applyCommand s c).cam.end_focus_pos = c.end_focus_pos
  ∧ (applyCommand s c).cam.focus_step = c.focus_step
  ∧ (applyCommand s c).cam.focus_inf = c.set_focus_inf
  ∧ (applyCommand s c).cam.aperture_steps = c.aperture_steps
  ∧ (applyCommand s c).cam.max_aperture = c.set_max_aperture
  ∧ (applyCommand s c).blob.make_static_hp_mask = c.make_hp
  ∧ (applyCommand s c).blob.use_static_hp_mask = c.use_hp
  ∧ (applyCommand s c).blob.dynamic_hot_pixels = truncToInt c.bp1
  ∧ (applyCommand s c).blob.high_pass_filter = truncToInt c.bp3
  ∧ (applyCommand s c).blob.filter_return_image = truncToInt c.bp6 := by
  unfold applyCommand
  refine ⟨?_, ?_, ?_, ?_, ?_, ?_, ?_, ?_, ?_, ?_, ?_, ?_, ?_, ?_, ?_, ?_,
    ?_, ?_, ?_, ?_, ?_, ?_, ?_⟩
  all_goals first
    | rfl
    | (dsimp only; split_ifs <;> rfl)

/-- C5: the camera exposure is updated exactly when the commanded exposure
differs after rounding (C `ceil`) from the current one; when it differs, the
stored exposure becomes the commanded value and the change flag is set to 1;
otherwise both the exposure and the change flag are left unchanged. -/
theorem C5_exposure_update (s : StateStore) (c : Commands) :
    ((applyCommand s c).cam.exposure_time =
      if Int.ceil c.exposure ≠ Int.ceil s.cam.exposure_time then c.exposure
      else s.cam.exposure_time)
  ∧ ((applyCommand s c).cam.change_exposure_bool =
      if Int.ceil c.exposure ≠ Int.ceil s.cam.exposure_time then 1
      else s.cam.change_exposure_bool) := by
  unfold applyCommand
  constructor <;> (dsimp only; split_ifs <;> rfl)

/-- C3: when the solver accepts no match, lostInSpace returns status 0, the
astrometry state (in particular every result field ra, dec, fr, ps, ir, alt,
az) is returned exactly as it was, and the observation file is untouched. -/
theorem C3_failure_is_silent {ι : Type} (ext : Externals ι)
    (indexes : List ι) (astro : Astrometry) (ce uR uD : ℚ) (nb : ℕ)
    (df : List Char) :
    (lostInSpace ext indexes astro ce uR uD nb none df).status = 0
  ∧ (lostInSpace ext indexes astro ce uR uD nb none df).astro = astro
  ∧ (lostInSpace ext indexes astro ce uR uD nb none df).astro.ra = astro.ra
  ∧ (lostInSpace ext indexes astro ce uR uD nb none df).astro.dec = astro.dec
  ∧ (lostInSpace ext indexes astro ce uR uD nb none df).astro.fr = astro.fr
  ∧ (lostInSpace ext indexes astro ce uR uD nb none df).astro.ps = astro.ps
  ∧ (lostInSpace ext indexes astro ce uR uD nb none df).astro.ir = astro.ir
  ∧ (lostInSpace ext indexes astro ce uR uD nb none df).astro.alt = astro.alt
  ∧ (lostInSpace ext indexes astro ce uR uD nb none df).astro.az = astro.az
  ∧ (lostInSpace ext indexes astro ce uR uD nb none df).file = df :=
  ⟨rfl, rfl, rfl, rfl, rfl, rfl, rfl, rfl, rfl, rfl⟩

/-- C4: a cycle whose command receive timed out or errored applies no command
(the state store is returned unchanged), still sends the full TelemetryPacket
snapshot immediately followed by the image frame, and leaves the connection
open for the next cycle. -/
theorem C4_timeout_still_sends (E : WireEnc) (s : StateStore)
    (frame : List ℕ) :
    (clientCycle E s none frame true true).store = s
  ∧ (clientCycle E s none frame true true).sent = serTelemetry E s ++ frame
  ∧ (clientCycle E s none frame true true).openNext = true :=
  ⟨rfl, rfl, rfl⟩

/-- C8: lostInSpace installs pixel-scale bounds equal to the configured
minimum and maximum pixel scale, and a minimum matchable quad size of 10% of
the smaller usable frame dimension (each dimension less twice the margin),
which with the camera.h constants is 121.6 pixels. -/
theorem C8_solver_configuration {ι : Type} (ext : Externals ι)
    (indexes : List ι) (astro : Astrometry) (ce uR uD : ℚ) (nb : ℕ)
    (oc : Option SuccessData) (df : List Char) :
    (lostInSpace ext indexes astro ce uR uD nb oc df).config.funits_lower
      = MIN_PS
  ∧ (lostInSpace ext indexes astro ce uR uD nb oc df).config.funits_upper
      = MAX_PS
  ∧ (lostInSpace ext indexes astro ce uR uD nb oc df).config.quadsize_min
      = (1 / 10) * min ((CAMERA_WIDTH - 2 * CAMERA_MARGIN : ℤ) : ℚ)
          ((CAMERA_HEIGHT - 2 * CAMERA_MARGIN : ℤ) : ℚ)
  ∧ (lostInSpace ext indexes astro ce uR uD nb oc df).config.quadsize_min
      = 608 / 5 := by
  cases oc <;>
    refine ⟨rfl, rfl, by norm_num [lostInSpace], ?_⟩ <;>
    · show (0.1 : ℚ) * min ((CAMERA_WIDTH - 2 * CAMERA_MARGIN : ℤ) : ℚ)
        ((CAMERA_HEIGHT - 2 * CAMERA_MARGIN : ℤ) : ℚ) = 608 / 5
      norm_num [CAMERA_WIDTH, CAMERA_HEIGHT, CAMERA_MARGIN]

/-- C10: after a successful solve the stored right ascension and declination
are the `iauAtco13` observed topocentric apparent places `rob` and `dob`
converted from radians to degrees (not the frame-center values read from the
world-coordinate mapping), the stored altitude is 90 degrees minus the
observed zenith distance in degrees, and those same values are what the log
record receives. -/
theorem C10_observed_place_stored {ι : Type} (ext : Externals ι)
    (indexes : List ι) (astro : Astrometry) (ce uR uD : ℚ) (nb : ℕ)
    (d : SuccessData) (df : List Char) :
    (lostInSpace ext indexes astro ce uR uD nb (some d) df).astro.ra
      = d.rob * (180 / M_PI)
  ∧ (lostInSpace ext indexes astro ce uR uD nb (some d) df).astro.dec
      = d.dob * (180 / M_PI)
  ∧ (lostInSpace ext indexes astro ce uR uD nb (some d) df).astro.alt
      = 90 - d.zob * (180 / M_PI)
  ∧ (lostInSpace ext indexes astro ce uR uD nb (some d) df).file
      = df ++ logRecord nb (d.rob * (180 / M_PI)) (d.dob * (180 / M_PI))
          d.wcsFr d.wcsPs (90 - d.zob * (180 / M_PI)) (d.aob * (180 / M_PI))
          (d.paRad * (180 / M_PI) + d.wcsFr) d.elapsedMs
  ∧ (d.rob * (180 / M_PI) ≠ d.wcsRa →
      (lostInSpace ext indexes astro ce uR uD nb (some d) df).astro.ra
        ≠ d.wcsRa) :=
  ⟨rfl, rfl, rfl, rfl, fun h => h⟩

/-- C10 witness: at a concrete solve whose observed right ascension is 0
radians while the frame-center reading is 5 degrees, the stored right
ascension is not the frame-center value. -/
theorem C10_observed_place_stored_witness :
    (lostInSpace extDemo ([] : List ℕ) astroZero 100 0 0 3 (some sdObs)
      []).astro.ra ≠ sdObs.wcsRa :=
  (C10_observed_place_stored extDemo ([] : List ℕ) astroZero 100 0 0 3 sdObs
    []).2.2.2.2 (by norm_num [sdObs, sdZero, M_PI])

/-- C7: under the fixed C type widths, the TelemetryPacket byte string has the
same length for every state (the sum of the three packed group sizes, 184
bytes, with no padding), and on a successful cycle the wire output is exactly
that packet immediately followed by the CAMERA_WIDTH times CAMERA_HEIGHT
bytes of the raw frame. -/
theorem C7_telemetry_wire_layout (E : WireEnc) (h : E.sized)
    (s s2 : StateStore) (frame : List ℕ) (recv : Option Commands)
    (hf : frame.length = (CAMERA_WIDTH * CAMERA_HEIGHT).toNat) :
    (serTelemetry E s).length =
      (serAstro E s.astro).length + (serCam E s.cam).length
        + (serBlob E s.blob).length
  ∧ (serTelemetry E s).length = 184
  ∧ (serTelemetry E s).length = (serTelemetry E s2).length
  ∧ (clientCycle E s recv frame true true).sent =
      serTelemetry E ((clientCycle E s recv frame true true).store) ++ frame
  ∧ (clientCycle E s recv frame true true).sent.length
      = 184 + (CAMERA_WIDTH * CAMERA_HEIGHT).toNat := by
  obtain ⟨h8, h4, hf4⟩ := h
  have hlen : ∀ t : StateStore, (serTelemetry E t).length = 184 := by
    intro t
    simp [serTelemetry, serAstro, serCam, serBlob, h8, h4, hf4]
  refine ⟨?_, hlen s, (hlen s).trans (hlen s2).symm, ?_, ?_⟩
  · simp [serTelemetry]
    omega
  · cases recv <;> rfl
  · cases recv <;>
      simp [clientCycle, hlen, hf]

/-- C7 witness: with concrete encoders of the C widths and a frame buffer of
CAMERA_WIDTH times CAMERA_HEIGHT zero bytes, the packet length is 184. -/
theorem C7_telemetry_wire_layout_witness :
    (serTelemetry encDemo storeDemo).length = 184 :=
  (C7_telemetry_wire_layout encDemo
    ⟨fun _ => by simp [encDemo], fun _ => by simp [encDemo],
      fun _ => by simp [encDemo]⟩
    storeDemo storeDemo
    (List.replicate (CAMERA_WIDTH * CAMERA_HEIGHT).toNat 0) none
    (by simp)).2.1

/-- C2: the index-partition selection of lostInSpace is driven by the local
variables `ra` and `dec`, which are read before any assignment (astrometry.c
line 84 declares them, line 138 reads them), not by the previous pointing
guess held in `all_astro_params`. At a concrete call whose previous guess is
the valid pointing (ra, dec) = (10, 20) and whose indeterminate locals happen
to hold (-1000, 0), the code searches every partition, while selection from
the previous guess (the spec's rule, with a range test that accepts nothing)
would search none; and the partitions searched do not depend on the stored
guess at all. -/
theorem C2_selection_reads_uninitialized_locals :
    (lostInSpace extDemo [0] astroGuess 100 (-1000) 0 3 none []).searched
      = [0]
  ∧ astroGuess.ra = 10
  ∧ astroGuess.dec = 20
  ∧ specSelection extDemo.withinRange astroGuess.ra astroGuess.dec radiusDemo
      [0] = []
  ∧ (lostInSpace extDemo [0] astroGuess 100 (-1000) 0 3 none []).searched
      ≠ specSelection extDemo.withinRange astroGuess.ra astroGuess.dec
          radiusDemo [0]
  ∧ (∀ g1 g2 : ℚ,
      (lostInSpace extDemo [0] { astroGuess with ra := g1, dec := g2 } 100
        (-1000) 0 3 none []).searched = [0]) := by
  refine ⟨?_, rfl, rfl, ?_, ?_, ?_⟩
  · norm_num [lostInSpace, extDemo]
  · norm_num [specSelection, astroGuess, astroZero, extDemo]
  · norm_num [lostInSpace, specSelection, astroGuess, astroZero, extDemo]
  · intro g1 g2
    norm_num [lostInSpace, extDemo]

/-- C9: mutual exclusion over the command-merge region is violated: from the
start state (flag clear, both sessions at the `while (command_lock)` test) the
interleaved lock protocol of processClient reaches a state in which both
session threads are inside the merge region at once, because the flag test
and the flag store are separate non-atomic steps. -/
theorem C9_both_sessions_in_merge_region :
    ∃ l : LockState, LockReachable l
      ∧ l.t0 = LockPC.inCS ∧ l.t1 = LockPC.inCS := by
  refine ⟨⟨true, LockPC.inCS, LockPC.inCS⟩, ?_, rfl, rfl⟩
  have s1 : LockStep ⟨false, LockPC.checking, LockPC.checking⟩
      ⟨false, LockPC.setting, LockPC.checking⟩ :=
    LockStep.pass0 ⟨false, LockPC.checking, LockPC.checking⟩ rfl rfl
  have s2 : LockStep ⟨false, LockPC.setting, LockPC.checking⟩
      ⟨false, LockPC.setting, LockPC.setting⟩ :=
    LockStep.pass1 ⟨false, LockPC.setting, LockPC.checking⟩ rfl rfl
  have s3 : LockStep ⟨false, LockPC.setting, LockPC.setting⟩
      ⟨true, LockPC.inCS, LockPC.setting⟩ :=
    LockStep.set0 ⟨false, LockPC.setting, LockPC.setting⟩ rfl
  have s4 : LockStep ⟨true, LockPC.inCS, LockPC.setting⟩
      ⟨true, LockPC.inCS, LockPC.inCS⟩ :=
    LockStep.set1 ⟨true, LockPC.inCS, LockPC.setting⟩ rfl
  exact Relation.ReflTransGen.head s1 (Relation.ReflTransGen.head s2
    (Relation.ReflTransGen.head s3 (Relation.ReflTransGen.head s4
      Relation.ReflTransGen.refl)))

/-- C6 counterexample: a concrete successful solve starting from an empty
observation file returns success and appends a nonempty record, yet the file
gains no new line at all (the fprintf format string carries no newline), so
the log does not gain exactly one new line per successful solve. -/
theorem C6_counterexample_no_newline :
    (lostInSpace extDemo ([] : List ℕ) astroZero 100 0 0 3 (some sdZero)
      []).status = 1
  ∧ (lostInSpace extDemo ([] : List ℕ) astroZero 100 0 0 3 (some sdZero)
      []).file ≠ []
  ∧ countNewlines (lostInSpace extDemo ([] : List ℕ) astroZero 100 0 0 3
      (some sdZero) []).file = countNewlines ([] : List Char) := by
  refine ⟨rfl, ?_, ?_⟩
  · decide
  · show countNewlines (([] : List Char) ++ logRecord 3 _ _ _ _ _ _ _ _)
      = countNewlines ([] : List Char)
    exact countNewlines_append_logRecord [] 3 _ _ _ _ _ _ _ _

/-- C6 amended: every successful solve appends exactly one pipe-delimited
record numBlobs|ra|dec|fr|ps|alt|az|ir|elapsedMs to the observation file,
which is opened in append mode so the prior contents are preserved unchanged
(never truncated or rewritten); but the record carries no newline terminator,
so the file's line count does not grow. -/
theorem C6_append_only_record {ι : Type} (ext : Externals ι)
    (indexes : List ι) (astro : Astrometry) (ce uR uD : ℚ) (nb : ℕ)
    (d : SuccessData) (df : List Char) :
    (lostInSpace ext indexes astro ce uR uD nb (some d) df).status = 1
  ∧ (lostInSpace ext indexes astro ce uR uD nb (some d) df).file
      = df ++ logRecord nb (d.rob * (180 / M_PI)) (d.dob * (180 / M_PI))
          d.wcsFr d.wcsPs (90 - d.zob * (180 / M_PI)) (d.aob * (180 / M_PI))
          (d.paRad * (180 / M_PI) + d.wcsFr) d.elapsedMs
  ∧ countNewlines (lostInSpace ext indexes astro ce uR uD nb (some d)
      df).file = countNewlines df := by
  refine ⟨rfl, rfl, ?_⟩
  show countNewlines (df ++ logRecord nb _ _ _ _ _ _ _ _) = countNewlines df
  exact countNewlines_append_logRecord df nb _ _ _ _ _ _ _ _
